import Mathlib

/-!
Verification of the vote-ban plugin (`src/plugin.py`) against its
natural-language specification.

The development shallowly embeds the two stateful operations of the plugin:

* `VoteBanCommand.execute` (proposal admission, announcement posting and
  registry insertion), embedded as `VotePlugin.execute`;
* `VoteBanCommand._end_vote_after_delay` (deferred resolution: tally,
  outcome, enforcement, announcement, cleanup), embedded as
  `VotePlugin.end_vote_after_delay`.

The global dictionary `vote_summaries` is embedded as an association list
from message-id keys to `VoteInfo` records, with Python-dict semantics
(`dictGet`, `dictSet`, `dictPop`).  Network effects are embedded as oracle
parameters: the result of posting a message is an `Option Int`
(`None` = the helper returned no message id), the result of each reaction
tally query is an `Option Nat` (`none` = transport error or non-zero
retcode, in which case the code uses 0), and the mute call's network
outcome is a `Bool` that the code ignores (all its errors are swallowed).

Python `int(...)` conversion of id strings is embedded by `pyInt`; note
that in `send_group_text_via_napcat` and `set_group_ban_via_napcat` the
payload (and hence `int(group_id)` / `int(user_id)`) is built *outside*
the `try` block, so an unparsable id raises out of the calling coroutine;
this is modelled by the `crashed` flag of the result structures.
-/

namespace VotePlugin

/-- Digits of a decimal numeral, folded to a natural number
(the value `int` assigns to a digit string). -/
def digitsVal (l : List Char) : Nat :=
  l.foldl (fun a c => a * 10 + (c.toNat - 48)) 0

/-- Whether `c` counts as whitespace for Python `str.strip`. -/
def isPySpace (c : Char) : Bool := c.isWhitespace

/-- Python `str.strip()`: drop whitespace from both ends. -/
def pyStrip (s : String) : String :=
  String.mk (((s.data.dropWhile isPySpace).reverse.dropWhile isPySpace).reverse)

/-- Tail of a Python integer literal after its first digit: digits with
single interior underscores (an underscore must be followed by a digit). -/
def pyIntTail : List Char → Bool
  | [] => true
  | '_' :: c :: rest => c.isDigit && pyIntTail rest
  | ['_'] => false
  | c :: rest => c.isDigit && pyIntTail rest

/-- Digit part of a Python integer literal: nonempty, leading digit,
underscores only between digits. -/
def pyIntCore : List Char → Bool
  | [] => false
  | c :: rest => c.isDigit && pyIntTail rest

/-- Python `int(s)` on a string: strip whitespace, optional sign, digit
core; `none` models the `ValueError` raised on anything else. -/
def pyInt (s : String) : Option Int :=
  let t := ((s.data.dropWhile isPySpace).reverse.dropWhile isPySpace).reverse
  match t with
  | '+' :: rest =>
    if pyIntCore rest then some (digitsVal (rest.filter (fun c => !(c == '_')))) else none
  | '-' :: rest =>
    if pyIntCore rest then some (-(digitsVal (rest.filter (fun c => !(c == '_'))) : Int)) else none
  | rest =>
    if pyIntCore rest then some (digitsVal (rest.filter (fun c => !(c == '_')))) else none

/-- A vote record stored in `vote_summaries` (one dict value in the source). -/
structure VoteInfo where
  group_id : String
  target_user_id : String
  target_name : String
  minutes : Int
  yes : Nat
  no : Nat
deriving DecidableEq, Repr

/-- The `vote_summaries` global dict: message-id key to vote info. -/
abbrev Registry := List (String × VoteInfo)

/-- Python dict lookup `d.get(k)`. -/
def dictGet : Registry → String → Option VoteInfo
  | [], _ => none
  | (k, v) :: rest, key => if k = key then some v else dictGet rest key

/-- Python dict assignment `d[k] = v`: replace the entry if the key is
present, else add it. -/
def dictSet : Registry → String → VoteInfo → Registry
  | [], key, v => [(key, v)]
  | (k, w) :: rest, key, v =>
    if k = key then (k, v) :: rest else (k, w) :: dictSet rest key v

/-- Python `d.pop(k, None)`: drop the entry with the given key (a no-op
when the key is absent). -/
def dictPop (st : Registry) (key : String) : Registry :=
  st.filter (fun kv => !(kv.1 == key))

/-- `any(v.get('group_id') == group_id for v in vote_summaries.values())`. -/
def hasActiveInRoom (st : Registry) (gid : String) : Bool :=
  st.any (fun kv => kv.2.group_id == gid)

/-- One message segment, as inspected by `execute` (only `at` segments
matter; their `qq` field is read through `str(...)`). -/
inductive Seg where
  | atSeg (qq : String)
  | other
deriving DecidableEq, Repr

/-- The message content `execute` receives: either a plain string
(`raw_message` style) or a list of structured segments. -/
inductive MsgParts where
  | str (s : String)
  | segs (l : List Seg)
deriving DecidableEq, Repr

/-- `re.search(r"@(\d+)", s)`: the digit group of the leftmost occurrence
of `@` followed by at least one digit (greedy digit run). -/
def findAtDigits : List Char → Option (List Char)
  | [] => none
  | c :: rest =>
    if c = '@' then
      if (rest.takeWhile Char.isDigit).isEmpty then findAtDigits rest
      else some (rest.takeWhile Char.isDigit)
    else findAtDigits rest

/-- Lines 269-275 of the source: a plain-string content is replaced by a
single synthetic `at` segment when it contains `@digits`, else by `[]`;
structured content is used as is. -/
def normalizeParts : MsgParts → List Seg
  | MsgParts.str s =>
    match findAtDigits s.data with
    | some ds => [Seg.atSeg (String.mk ds)]
    | none => []
  | MsgParts.segs l => l

/-- Lines 297-302: scan the segments for an `at` segment whose `qq`
matches `target_str` directly or after removal of a leading `@`. -/
def findTarget : List Seg → String → Option String
  | [], _ => none
  | Seg.atSeg qq :: rest, tgt =>
    if qq = tgt ∨ (tgt.data.head? = some '@' ∧ qq.data = tgt.data.drop 1) then some qq
    else findTarget rest tgt
  | Seg.other :: rest, tgt => findTarget rest tgt

/-- Line 293: `int(matched_groups.get("minutes") or default)` with the
`except (ValueError, TypeError)` fallback to the default. -/
def parseMinutes (g : Option String) (dflt : Int) : Int :=
  match g with
  | none => dflt
  | some s => if s = "" then dflt else (pyInt s).getD dflt

/-- The plugin's configuration (section `vote_ban`). -/
structure Config where
  default_minutes : Int
  vote_duration : Int
deriving DecidableEq, Repr

/-- `VoteBanCommand.DEFAULT_CONFIG` / the config-schema defaults. -/
def DEFAULT_CONFIG : Config := ⟨1, 60⟩

/-- The proposal announcement text built at line 310. -/
def proposalText (target_str : String) (minutes : Int) (vote_duration : Int) : String :=
  "📢 群投票禁言发起\n目标用户: @" ++ target_str ++ "\n禁言时长: " ++ toString minutes ++
    " 分钟\n投票方式: [按钮] 同意 / [❓] 反对\n投票时间: " ++ toString vote_duration ++ " 秒"

/-- The inputs `execute` draws from the inbound message (after the
defensive context extraction of `_resolve_ctx_from_message_any` and the
regex groups of `command_pattern`). -/
structure ExecInput where
  full_command : String
  message_parts : MsgParts
  group_id : Option String
  sender_qq : Option String
  target_str : Option String
  minutes_group : Option String
deriving DecidableEq, Repr

/-- Result of one `execute` run: the returned `(ok, msg)` pair, the
registry afterwards, the announcement attempts, the scheduled resolution
tasks, and whether an exception escaped (`crashed`). -/
structure ExecResult where
  crashed : Bool
  ok : Bool
  msg : String
  stateAfter : Registry
  posted : List (String × String)
  scheduled : List String
deriving DecidableEq, Repr

/-- Failure return `(False, msg, True)` with no state change. -/
def mkFail (st : Registry) (m : String) : ExecResult :=
  ⟨false, false, m, st, [], []⟩

/-- `VoteBanCommand.execute`, embedded.  `sendNet` is the network outcome
of `send_group_text_via_napcat` (the `message_id` it returns, `none` for
a caught transport failure).  The `int(group_id)` conversion inside that
helper happens before its `try` block, so an unparsable `group_id`
crashes `execute`. -/
def execute (cfg : Config) (inp : ExecInput) (st : Registry) (sendNet : Option Int) :
    ExecResult :=
  if pyStrip inp.full_command = "/投票禁言" then mkFail st "no_target"
  else if inp.group_id.getD "" = "" ∨ inp.sender_qq.getD "" = "" then
    mkFail st "not_in_group"
  else if hasActiveInRoom st (inp.group_id.getD "") then mkFail st "vote_in_progress"
  else if inp.target_str.getD "" = "" then mkFail st "no_target"
  else
    match findTarget (normalizeParts inp.message_parts) (inp.target_str.getD "") with
    | none => mkFail st "target_id_not_found"
    | some target_user_id =>
      if (pyInt (inp.group_id.getD "")).isSome then
        match sendNet with
        | some mid =>
          if mid = 0 then
            ⟨false, false, "发送投票消息失败", st,
              [(inp.group_id.getD "",
                proposalText (inp.target_str.getD "")
                  (parseMinutes inp.minutes_group cfg.default_minutes) cfg.vote_duration)],
              []⟩
          else
            ⟨false, true, "投票已发起",
              dictSet st (toString mid)
                ⟨inp.group_id.getD "", target_user_id, inp.target_str.getD "",
                  parseMinutes inp.minutes_group cfg.default_minutes, 0, 0⟩,
              [(inp.group_id.getD "",
                proposalText (inp.target_str.getD "")
                  (parseMinutes inp.minutes_group cfg.default_minutes) cfg.vote_duration)],
              [toString mid]⟩
        | none =>
          ⟨false, false, "发送投票消息失败", st,
            [(inp.group_id.getD "",
              proposalText (inp.target_str.getD "")
                (parseMinutes inp.minutes_group cfg.default_minutes) cfg.vote_duration)],
            []⟩
      else ⟨true, false, "", st, [], []⟩

/-- The ban request body built by `set_group_ban_via_napcat` (lines
194-198): integer ids and a duration in seconds. -/
structure BanPayload where
  group_id : Int
  user_id : Int
  duration : Int
deriving DecidableEq, Repr

/-- The first line block of the outcome announcement (lines 409-411). -/
def voteHeader (tname : String) (y n : Nat) : String :=
  "📢 投票结果 - 用户 " ++ tname ++ "\n[✅] 同意票: " ++ toString y ++
    "\n[❓] 反对票: " ++ toString n ++ "\n"

/-- The passing verdict line appended at line 414. -/
def votePassedTail (minutes : Int) : String :=
  "投票通过！该用户将被禁言 " ++ toString minutes ++ " 分钟。"

/-- The failing verdict line appended at line 417. -/
def voteFailedTail : String :=
  "投票未通过，该用户保留自由。"

/-- The full outcome announcement text. -/
def voteResultText (tname : String) (minutes : Int) (y n : Nat) : String :=
  voteHeader tname y n ++ (if n < y then votePassedTail minutes else voteFailedTail)

/-- Result of one resolution run: announcement attempts, ban-request
attempts, the registry afterwards, and whether an exception escaped. -/
structure ResolveOutput where
  crashed : Bool
  announcements : List (String × String)
  muteCalls : List BanPayload
  stateAfter : Registry
deriving DecidableEq, Repr

/-- `VoteBanCommand._end_vote_after_delay`, embedded (the part after the
sleep).  `yesQ`/`noQ` are the reaction tally oracle results (`none` =
transport error or non-zero retcode, both of which leave the count 0);
`banNetOk` is the network outcome of the mute call, which the code
swallows; `annNet` is the outcome announcement's network result, which
the code ignores.  The mute and announcement helpers build their payload
(`int(group_id)`, `int(user_id)`) before their `try` blocks, so an
unparsable id raises out of the task: `crashed` is set, nothing later in
the body (announcement, `pop`) runs. -/
def end_vote_after_delay (st : Registry) (message_id : String)
    (yesQ noQ : Option Nat) (banNetOk : Bool) (annNet : Option Int) : ResolveOutput :=
  match dictGet st message_id with
  | none => ⟨false, [], [], st⟩
  | some vi =>
    if noQ.getD 0 < yesQ.getD 0 then
      match pyInt vi.group_id, pyInt vi.target_user_id with
      | some g, some u =>
        ⟨false,
          [(vi.group_id,
            voteResultText vi.target_name vi.minutes (yesQ.getD 0) (noQ.getD 0))],
          [⟨g, u, vi.minutes * 60⟩],
          dictPop (dictSet st message_id
            { vi with yes := yesQ.getD 0, no := noQ.getD 0 }) message_id⟩
      | _, _ =>
        ⟨true, [], [],
          dictSet st message_id { vi with yes := yesQ.getD 0, no := noQ.getD 0 }⟩
    else
      match pyInt vi.group_id with
      | some _ =>
        ⟨false,
          [(vi.group_id,
            voteResultText vi.target_name vi.minutes (yesQ.getD 0) (noQ.getD 0))],
          [],
          dictPop (dictSet st message_id
            { vi with yes := yesQ.getD 0, no := noQ.getD 0 }) message_id⟩
      | none =>
        ⟨true, [], [],
          dictSet st message_id { vi with yes := yesQ.getD 0, no := noQ.getD 0 }⟩

/-- Room-scoped mutual exclusion: no two registry entries carry the same
`group_id` (spec §3, §8). -/
def PerRoomUnique (st : Registry) : Prop :=
  st.Pairwise (fun a b => ¬ a.2.group_id = b.2.group_id)

/-- Lookup after an assignment of the same key yields the new value. -/
theorem dictGet_dictSet_self (l : Registry) (k : String) (v : VoteInfo) :
    dictGet (dictSet l k v) k = some v := by
  induction l with
  | nil => simp [dictSet, dictGet]
  | cons hd tl ih =>
    obtain ⟨a, w⟩ := hd
    by_cases h : a = k
    · simp [dictSet, dictGet, h]
    · simp [dictSet, dictGet, h, ih]

/-- Lookup of a different key is unchanged by an assignment. -/
theorem dictGet_dictSet_ne (l : Registry) (k k' : String) (v : VoteInfo)
    (h : ¬ k' = k) : dictGet (dictSet l k v) k' = dictGet l k' := by
  induction l with
  | nil =>
    simp only [dictSet, dictGet]
    rw [if_neg (fun hh => h hh.symm)]
  | cons hd tl ih =>
    obtain ⟨a, w⟩ := hd
    by_cases ha : a = k
    · subst ha
      simp only [dictSet, if_pos rfl, dictGet]
      rw [if_neg (fun hh => h hh.symm), if_neg (fun hh => h hh.symm)]
    · simp only [dictSet, if_neg ha, dictGet]
      by_cases hk' : a = k'
      · rw [if_pos hk', if_pos hk']
      · rw [if_neg hk', if_neg hk', ih]

/-- Lookup after `pop` of the same key yields nothing. -/
theorem dictGet_dictPop_self (l : Registry) (k : String) :
    dictGet (dictPop l k) k = none := by
  induction l with
  | nil => rfl
  | cons hd tl ih =>
    obtain ⟨a, w⟩ := hd
    by_cases h : a = k
    · simpa [dictPop, List.filter_cons, h] using ih
    · simpa [dictPop, List.filter_cons, h, dictGet] using ih

/-- A successful lookup exhibits a member of the association list. -/
theorem dictGet_mem (l : Registry) (k : String) (v : VoteInfo)
    (h : dictGet l k = some v) : (k, v) ∈ l := by
  induction l with
  | nil => simp [dictGet] at h
  | cons hd tl ih =>
    obtain ⟨a, w⟩ := hd
    by_cases ha : a = k
    · subst ha
      rw [dictGet, if_pos rfl] at h
      injection h with h
      subst h
      exact List.mem_cons_self _ _
    · rw [dictGet, if_neg ha] at h
      exact List.mem_cons_of_mem _ (ih h)

/-- `hasActiveInRoom` is false exactly when no record carries the room id. -/
theorem hasActive_eq_false_iff (l : Registry) (g : String) :
    hasActiveInRoom l g = false ↔ ∀ kv ∈ l, ¬ kv.2.group_id = g := by
  simp [hasActiveInRoom, List.any_eq_false]

/-- After an assignment, the room of the assigned record is active. -/
theorem hasActive_dictSet_self (l : Registry) (k : String) (v : VoteInfo) :
    hasActiveInRoom (dictSet l k v) v.group_id = true := by
  induction l with
  | nil => simp [dictSet, hasActiveInRoom]
  | cons hd tl ih =>
    obtain ⟨a, w⟩ := hd
    by_cases h : a = k
    · simp [dictSet, hasActiveInRoom, h]
    · simp only [dictSet, if_neg h, hasActiveInRoom, List.any_cons] at ih ⊢
      rw [ih, Bool.or_true]

/-- Membership in `dictSet l k v`: either the value is `v` or the pair
was already present. -/
theorem mem_dictSet (l : Registry) (k : String) (v : VoteInfo)
    (x : String × VoteInfo) (h : x ∈ dictSet l k v) : x.2 = v ∨ x ∈ l := by
  induction l with
  | nil =>
    simp only [dictSet, List.mem_singleton] at h
    left
    rw [h]
  | cons hd tl ih =>
    obtain ⟨a, w⟩ := hd
    by_cases ha : a = k
    · rw [dictSet, if_pos ha] at h
      rcases List.mem_cons.mp h with h | h
      · left; rw [h]
      · right; exact List.mem_cons_of_mem _ h
    · rw [dictSet, if_neg ha] at h
      rcases List.mem_cons.mp h with h | h
      · right; rw [h]; exact List.mem_cons_self _ _
      · rcases ih h with h | h
        · left; exact h
        · right; exact List.mem_cons_of_mem _ h

/-- Inserting a record for a room with no active vote preserves the
one-vote-per-room invariant. -/
theorem perRoomUnique_dictSet_new (l : Registry) (k : String) (v : VoteInfo)
    (hact : hasActiveInRoom l v.group_id = false) (h : PerRoomUnique l) :
    PerRoomUnique (dictSet l k v) := by
  induction l with
  | nil => simp [dictSet, PerRoomUnique]
  | cons hd tl ih =>
    obtain ⟨a, w⟩ := hd
    rw [PerRoomUnique, List.pairwise_cons] at h
    have hall := (hasActive_eq_false_iff _ _).mp hact
    have hactTl : hasActiveInRoom tl v.group_id = false :=
      (hasActive_eq_false_iff _ _).mpr fun kv hkv => hall kv (List.mem_cons_of_mem _ hkv)
    by_cases hk : a = k
    · rw [dictSet, if_pos hk, PerRoomUnique, List.pairwise_cons]
      refine ⟨fun b hb hgb => ?_, h.2⟩
      exact hall b (List.mem_cons_of_mem _ hb) hgb.symm
    · rw [dictSet, if_neg hk, PerRoomUnique, List.pairwise_cons]
      refine ⟨fun b hb => ?_, ih hactTl h.2⟩
      rcases mem_dictSet tl k v b hb with hv | hmem
      · rw [hv]
        intro hgb
        exact hall (a, w) (List.mem_cons_self _ _) hgb
      · exact h.1 b hmem

/-- Replacing a present record with one for the same room preserves the
one-vote-per-room invariant. -/
theorem perRoomUnique_dictSet_update (l : Registry) (k : String) (v w : VoteInfo)
    (hget : dictGet l k = some w) (hgid : v.group_id = w.group_id)
    (h : PerRoomUnique l) : PerRoomUnique (dictSet l k v) := by
  induction l with
  | nil => simp [dictGet] at hget
  | cons hd tl ih =>
    obtain ⟨a, u⟩ := hd
    rw [PerRoomUnique, List.pairwise_cons] at h
    by_cases hk : a = k
    · rw [dictGet, if_pos hk] at hget
      injection hget with hw
      rw [dictSet, if_pos hk, PerRoomUnique, List.pairwise_cons]
      refine ⟨fun b hb => ?_, h.2⟩
      rw [hgid, ← hw]
      exact h.1 b hb
    · rw [dictGet, if_neg hk] at hget
      rw [dictSet, if_neg hk, PerRoomUnique, List.pairwise_cons]
      refine ⟨fun b hb => ?_, ih hget h.2⟩
      rcases mem_dictSet tl k v b hb with hv | hmem
      · rw [hv, hgid]
        exact h.1 (k, w) (dictGet_mem tl k w hget)
      · exact h.1 b hmem

/-- Removing a record preserves the one-vote-per-room invariant. -/
theorem perRoomUnique_dictPop (l : Registry) (k : String) (h : PerRoomUnique l) :
    PerRoomUnique (dictPop l k) :=
  List.Pairwise.sublist (List.filter_sublist l) h

/-- Resolution with the record absent is a silent no-op. -/
theorem endVote_absent (st : Registry) (mid : String) (yq nq : Option Nat)
    (b : Bool) (a : Option Int) (h : dictGet st mid = none) :
    end_vote_after_delay st mid yq nq b a = ⟨false, [], [], st⟩ := by
  unfold end_vote_after_delay
  rw [h]

/-- Resolution with the record present and integer-parsable ids: one
announcement with the observed counts, a ban request exactly when the
approve count strictly exceeds the reject count, and unconditional
removal of the record; the network oracles `b` and `a` are irrelevant. -/
theorem endVote_present (st : Registry) (mid : String) (vi : VoteInfo)
    (yq nq : Option Nat) (b : Bool) (a : Option Int) (g u : Int)
    (hget : dictGet st mid = some vi)
    (hg : pyInt vi.group_id = some g)
    (hu : pyInt vi.target_user_id = some u) :
    end_vote_after_delay st mid yq nq b a =
      ⟨false,
        [(vi.group_id, voteResultText vi.target_name vi.minutes (yq.getD 0) (nq.getD 0))],
        if nq.getD 0 < yq.getD 0 then [⟨g, u, vi.minutes * 60⟩] else [],
        dictPop (dictSet st mid { vi with yes := yq.getD 0, no := nq.getD 0 }) mid⟩ := by
  unfold end_vote_after_delay
  simp only [hget]
  by_cases hc : nq.getD 0 < yq.getD 0
  · rw [if_pos hc, if_pos hc, hg, hu]
  · rw [if_neg hc, if_neg hc, hg]

/-- Resolution preserves the one-vote-per-room invariant. -/
theorem perRoomUnique_endVote (st : Registry) (mid : String) (yq nq : Option Nat)
    (b : Bool) (a : Option Int) (h : PerRoomUnique st) :
    PerRoomUnique (end_vote_after_delay st mid yq nq b a).stateAfter := by
  unfold end_vote_after_delay
  cases hget : dictGet st mid with
  | none => exact h
  | some vi =>
    have hset : PerRoomUnique (dictSet st mid { vi with yes := yq.getD 0, no := nq.getD 0 }) :=
      perRoomUnique_dictSet_update st mid _ vi hget rfl h
    dsimp only
    by_cases hc : nq.getD 0 < yq.getD 0
    · rw [if_pos hc]
      cases hg : pyInt vi.group_id with
      | none => exact hset
      | some g =>
        cases hu : pyInt vi.target_user_id with
        | none => exact hset
        | some u => exact perRoomUnique_dictPop _ _ hset
    · rw [if_neg hc]
      cases hg : pyInt vi.group_id with
      | none => exact hset
      | some g => exact perRoomUnique_dictPop _ _ hset

/-- Case analysis of `execute`: either it fails (in any of its failure
branches) leaving the registry untouched and scheduling nothing, or it
succeeds, in which case the announcement returned a nonzero message id,
the room had no active vote, and the new record is inserted under the
stringified message id. -/
theorem execute_cases (cfg : Config) (inp : ExecInput) (st : Registry) (post : Option Int) :
    ((execute cfg inp st post).ok = false ∧ (execute cfg inp st post).stateAfter = st ∧
      (execute cfg inp st post).scheduled = []) ∨
    (∃ mid u,
      post = some mid ∧ ¬ mid = 0 ∧
      (execute cfg inp st post).ok = true ∧
      ¬ pyStrip inp.full_command = "/投票禁言" ∧
      ¬ inp.group_id.getD "" = "" ∧
      ¬ inp.sender_qq.getD "" = "" ∧
      hasActiveInRoom st (inp.group_id.getD "") = false ∧
      ¬ inp.target_str.getD "" = "" ∧
      findTarget (normalizeParts inp.message_parts) (inp.target_str.getD "") = some u ∧
      (execute cfg inp st post).stateAfter =
        dictSet st (toString mid)
          ⟨inp.group_id.getD "", u, inp.target_str.getD "",
            parseMinutes inp.minutes_group cfg.default_minutes, 0, 0⟩ ∧
      (execute cfg inp st post).scheduled = [toString mid]) := by
  unfold execute mkFail
  by_cases h1 : pyStrip inp.full_command = "/投票禁言"
  · rw [if_pos h1]; exact Or.inl ⟨rfl, rfl, rfl⟩
  rw [if_neg h1]
  by_cases h2 : inp.group_id.getD "" = "" ∨ inp.sender_qq.getD "" = ""
  · rw [if_pos h2]; exact Or.inl ⟨rfl, rfl, rfl⟩
  rw [if_neg h2]
  by_cases h3 : hasActiveInRoom st (inp.group_id.getD "") = true
  · rw [if_pos h3]; exact Or.inl ⟨rfl, rfl, rfl⟩
  rw [if_neg h3]
  by_cases h4 : inp.target_str.getD "" = ""
  · rw [if_pos h4]; exact Or.inl ⟨rfl, rfl, rfl⟩
  rw [if_neg h4]
  cases hft : findTarget (normalizeParts inp.message_parts) (inp.target_str.getD "") with
  | none => exact Or.inl ⟨rfl, rfl, rfl⟩
  | some u =>
    dsimp only
    by_cases h5 : (pyInt (inp.group_id.getD "")).isSome = true
    · rw [if_pos h5]
      cases post with
      | none => exact Or.inl ⟨rfl, rfl, rfl⟩
      | some mid =>
        dsimp only
        by_cases h6 : mid = 0
        · rw [if_pos h6]; exact Or.inl ⟨rfl, rfl, rfl⟩
        · rw [if_neg h6]
          exact Or.inr ⟨mid, u, rfl, h6, rfl, h1, (not_or.mp h2).1, (not_or.mp h2).2,
            Bool.not_eq_true _ ▸ h3, h4, rfl, rfl, rfl⟩
    · rw [if_neg h5]
      exact Or.inl ⟨rfl, rfl, rfl⟩

/-- When every admission check passes but the announcement post yields no
message id, `execute` fails with the send-failure message and leaves the
registry untouched. -/
theorem execute_sendfail (cfg : Config) (inp : ExecInput) (st : Registry) (u : String)
    (h1 : ¬ pyStrip inp.full_command = "/投票禁言")
    (h2 : ¬ inp.group_id.getD "" = "") (h3 : ¬ inp.sender_qq.getD "" = "")
    (h4 : hasActiveInRoom st (inp.group_id.getD "") = false)
    (h5 : ¬ inp.target_str.getD "" = "")
    (h6 : findTarget (normalizeParts inp.message_parts) (inp.target_str.getD "") = some u)
    (h7 : (pyInt (inp.group_id.getD "")).isSome = true) :
    execute cfg inp st none =
      ⟨false, false, "发送投票消息失败", st,
        [(inp.group_id.getD "",
          proposalText (inp.target_str.getD "")
            (parseMinutes inp.minutes_group cfg.default_minutes) cfg.vote_duration)],
        []⟩ := by
  unfold execute
  rw [if_neg h1, if_neg (not_or.mpr ⟨h2, h3⟩), if_neg (by simp [h4]), if_neg h5, h6]
  dsimp only
  rw [if_pos h7]

/-- When a vote is already active in the room (and the earlier checks
pass), `execute` fails with the in-progress message and changes nothing. -/
theorem execute_inProgress (cfg : Config) (inp : ExecInput) (st : Registry)
    (post : Option Int)
    (h1 : ¬ pyStrip inp.full_command = "/投票禁言")
    (h2 : ¬ inp.group_id.getD "" = "") (h3 : ¬ inp.sender_qq.getD "" = "")
    (h4 : hasActiveInRoom st (inp.group_id.getD "") = true) :
    execute cfg inp st post = mkFail st "vote_in_progress" := by
  unfold execute
  rw [if_neg h1, if_neg (not_or.mpr ⟨h2, h3⟩), if_pos h4]

/-- When the target reference cannot be matched to any `at` segment (and
the earlier checks pass), `execute` fails with the target-not-found
message and changes nothing. -/
theorem execute_targetNotFound (cfg : Config) (inp : ExecInput) (st : Registry)
    (post : Option Int)
    (h1 : ¬ pyStrip inp.full_command = "/投票禁言")
    (h2 : ¬ inp.group_id.getD "" = "") (h3 : ¬ inp.sender_qq.getD "" = "")
    (h4 : hasActiveInRoom st (inp.group_id.getD "") = false)
    (h5 : ¬ inp.target_str.getD "" = "")
    (h6 : findTarget (normalizeParts inp.message_parts) (inp.target_str.getD "") = none) :
    execute cfg inp st post = mkFail st "target_id_not_found" := by
  unfold execute
  rw [if_neg h1, if_neg (not_or.mpr ⟨h2, h3⟩), if_neg (by simp [h4]), if_neg h5, h6]

/-- Every character kept by `takeWhile p` satisfies `p`. -/
theorem all_takeWhile (p : Char → Bool) (l : List Char) :
    (l.takeWhile p).all p = true := by
  induction l with
  | nil => rfl
  | cons c rest ih =>
    cases hp : p c with
    | true => simp [List.takeWhile_cons, hp, ih]
    | false => simp [List.takeWhile_cons, hp]

/-- The digit group produced by `findAtDigits` is a nonempty digit run. -/
theorem findAtDigits_digits (l ds : List Char) (h : findAtDigits l = some ds) :
    ¬ ds = [] ∧ ds.all Char.isDigit = true := by
  induction l with
  | nil => simp [findAtDigits] at h
  | cons c rest ih =>
    rw [findAtDigits] at h
    by_cases hc : c = '@'
    · rw [if_pos hc] at h
      by_cases he : (rest.takeWhile Char.isDigit).isEmpty = true
      · rw [if_pos he] at h
        exact ih h
      · rw [if_neg he] at h
        injection h with h
        subst h
        refine ⟨fun hnil => he ?_, all_takeWhile _ _⟩
        rw [hnil]
        rfl
    · rw [if_neg hc] at h
      exact ih h

/-- `findTarget` over a single synthetic `at` segment can only return
that segment's `qq`. -/
theorem findTarget_single (q tgt u : String)
    (h : findTarget [Seg.atSeg q] tgt = some u) : u = q := by
  rw [findTarget] at h
  by_cases hc : q = tgt ∨ (tgt.data.head? = some '@' ∧ q.data = tgt.data.drop 1)
  · rw [if_pos hc] at h
    injection h with h
    exact h.symm
  · rw [if_neg hc] at h
    simp [findTarget] at h

/-- C1: at resolution the vote passes iff the observed approve count is
strictly greater than the observed reject count: a ban request is issued
exactly when `approve > reject`, and the outcome announcement carries the
passed verdict line exactly then and the failed verdict line otherwise
(so a tie, including `approve = reject = 0`, does not pass). -/
theorem C1_pass_iff_strict_majority (st : Registry) (mid : String) (vi : VoteInfo)
    (yesQ noQ : Option Nat) (b : Bool) (a : Option Int) (g u : Int)
    (hget : dictGet st mid = some vi)
    (hg : pyInt vi.group_id = some g)
    (hu : pyInt vi.target_user_id = some u) :
    (¬ (end_vote_after_delay st mid yesQ noQ b a).muteCalls = [] ↔
        noQ.getD 0 < yesQ.getD 0) ∧
    (noQ.getD 0 < yesQ.getD 0 →
      (end_vote_after_delay st mid yesQ noQ b a).announcements =
        [(vi.group_id,
          voteHeader vi.target_name (yesQ.getD 0) (noQ.getD 0) ++ votePassedTail vi.minutes)]) ∧
    (¬ noQ.getD 0 < yesQ.getD 0 →
      (end_vote_after_delay st mid yesQ noQ b a).announcements =
        [(vi.group_id,
          voteHeader vi.target_name (yesQ.getD 0) (noQ.getD 0) ++ voteFailedTail)]) := by
  rw [endVote_present st mid vi yesQ noQ b a g u hget hg hu]
  by_cases hc : noQ.getD 0 < yesQ.getD 0
  · simp [hc, voteResultText]
  · simp [hc, voteResultText]

/-- Witness for C1: counts (5, 3) pass, at a concrete registry. -/
theorem C1_pass_iff_strict_majority_witness :
    (dictGet [("9", (⟨"111", "222", "Bob", 5, 0, 0⟩ : VoteInfo))] "9" =
        some ⟨"111", "222", "Bob", 5, 0, 0⟩ ∧
      pyInt "111" = some 111 ∧ pyInt "222" = some 222) ∧
    ((¬ (end_vote_after_delay [("9", ⟨"111", "222", "Bob", 5, 0, 0⟩)] "9" (some 5) (some 3)
          true (some 1)).muteCalls = [] ↔
        (some 3 : Option Nat).getD 0 < (some 5 : Option Nat).getD 0) ∧
      ((some 3 : Option Nat).getD 0 < (some 5 : Option Nat).getD 0 →
        (end_vote_after_delay [("9", ⟨"111", "222", "Bob", 5, 0, 0⟩)] "9" (some 5) (some 3)
            true (some 1)).announcements =
          [("111",
            voteHeader "Bob" ((some 5 : Option Nat).getD 0) ((some 3 : Option Nat).getD 0) ++
              votePassedTail 5)]) ∧
      (¬ (some 3 : Option Nat).getD 0 < (some 5 : Option Nat).getD 0 →
        (end_vote_after_delay [("9", ⟨"111", "222", "Bob", 5, 0, 0⟩)] "9" (some 5) (some 3)
            true (some 1)).announcements =
          [("111",
            voteHeader "Bob" ((some 5 : Option Nat).getD 0) ((some 3 : Option Nat).getD 0) ++
              voteFailedTail)])) :=
  ⟨⟨by decide, by decide, by decide⟩,
    C1_pass_iff_strict_majority [("9", ⟨"111", "222", "Bob", 5, 0, 0⟩)] "9"
      ⟨"111", "222", "Bob", 5, 0, 0⟩ (some 5) (some 3) true (some 1) 111 222
      (by decide) (by decide) (by decide)⟩

/-- C3 (code-bug evidence): a propose from structured content can store a
non-integer `target_user_id` ("abc"); when such a vote passes, the ban
payload construction (`int(user_id)` at line 196, built before the `try`
at line 200) raises, the resolution task dies, no outcome announcement is
posted, and the record is left in the registry — contradicting the
claimed one-announcement-then-unconditional-removal behaviour. -/
theorem C3_resolution_leak_eval :
    (execute DEFAULT_CONFIG
        ⟨"/投票禁言 @abc", MsgParts.segs [Seg.atSeg "abc"], some "123", some "55",
          some "abc", none⟩ [] (some 100)).ok = true ∧
    (execute DEFAULT_CONFIG
        ⟨"/投票禁言 @abc", MsgParts.segs [Seg.atSeg "abc"], some "123", some "55",
          some "abc", none⟩ [] (some 100)).stateAfter =
      [("100", ⟨"123", "abc", "abc", 1, 0, 0⟩)] ∧
    (end_vote_after_delay [("100", ⟨"123", "abc", "abc", 1, 0, 0⟩)] "100" (some 1) (some 0)
        true (some 5)).crashed = true ∧
    (end_vote_after_delay [("100", ⟨"123", "abc", "abc", 1, 0, 0⟩)] "100" (some 1) (some 0)
        true (some 5)).announcements = [] ∧
    dictGet (end_vote_after_delay [("100", ⟨"123", "abc", "abc", 1, 0, 0⟩)] "100" (some 1)
        (some 0) true (some 5)).stateAfter "100" = some ⟨"123", "abc", "abc", 1, 1, 0⟩ := by
  decide

/-- C4: resolution is idempotent: with the record absent it exits
silently (no announcement, no ban call, registry unchanged); resolving a
present record and then resolving the same id again produces exactly one
announcement in total and leaves the record absent both times. -/
theorem C4_resolve_idempotent :
    (∀ st mid yq nq b a, dictGet st mid = none →
        end_vote_after_delay st mid yq nq b a = ⟨false, [], [], st⟩) ∧
    (∀ st mid vi yq nq b a yq2 nq2 b2 a2 g u,
        dictGet st mid = some vi →
        pyInt vi.group_id = some g →
        pyInt vi.target_user_id = some u →
        (end_vote_after_delay st mid yq nq b a).announcements.length = 1 ∧
        dictGet (end_vote_after_delay st mid yq nq b a).stateAfter mid = none ∧
        (end_vote_after_delay (end_vote_after_delay st mid yq nq b a).stateAfter mid
            yq2 nq2 b2 a2).announcements = [] ∧
        (end_vote_after_delay (end_vote_after_delay st mid yq nq b a).stateAfter mid
            yq2 nq2 b2 a2).stateAfter = (end_vote_after_delay st mid yq nq b a).stateAfter) := by
  constructor
  · exact fun st mid yq nq b a h => endVote_absent st mid yq nq b a h
  · intro st mid vi yq nq b a yq2 nq2 b2 a2 g u hget hg hu
    rw [endVote_present st mid vi yq nq b a g u hget hg hu]
    have hpop :
        dictGet (dictPop (dictSet st mid { vi with yes := yq.getD 0, no := nq.getD 0 }) mid)
          mid = none := dictGet_dictPop_self _ _
    refine ⟨rfl, hpop, ?_, ?_⟩
    · rw [endVote_absent _ _ _ _ _ _ hpop]
    · rw [endVote_absent _ _ _ _ _ _ hpop]

/-- Witness for C4 at concrete registries (absent case and double run). -/
theorem C4_resolve_idempotent_witness :
    (dictGet [] "7" = none ∧
      end_vote_after_delay [] "7" (some 1) (some 0) true (some 2) = ⟨false, [], [], []⟩) ∧
    (dictGet [("4", (⟨"31", "32", "Ann", 1, 0, 0⟩ : VoteInfo))] "4" =
        some ⟨"31", "32", "Ann", 1, 0, 0⟩ ∧
      pyInt "31" = some 31 ∧ pyInt "32" = some 32 ∧
      (end_vote_after_delay [("4", ⟨"31", "32", "Ann", 1, 0, 0⟩)] "4" (some 2) (some 2)
          true (some 3)).announcements.length = 1 ∧
      dictGet (end_vote_after_delay [("4", ⟨"31", "32", "Ann", 1, 0, 0⟩)] "4" (some 2) (some 2)
          true (some 3)).stateAfter "4" = none ∧
      (end_vote_after_delay
          (end_vote_after_delay [("4", ⟨"31", "32", "Ann", 1, 0, 0⟩)] "4" (some 2) (some 2)
            true (some 3)).stateAfter "4" (some 9) (some 0) false none).announcements = [] ∧
      (end_vote_after_delay
          (end_vote_after_delay [("4", ⟨"31", "32", "Ann", 1, 0, 0⟩)] "4" (some 2) (some 2)
            true (some 3)).stateAfter "4" (some 9) (some 0) false none).stateAfter =
        (end_vote_after_delay [("4", ⟨"31", "32", "Ann", 1, 0, 0⟩)] "4" (some 2) (some 2)
          true (some 3)).stateAfter) :=
  ⟨⟨by decide, C4_resolve_idempotent.1 [] "7" (some 1) (some 0) true (some 2) (by decide)⟩,
    ⟨by decide, by decide, by decide,
      C4_resolve_idempotent.2 [("4", ⟨"31", "32", "Ann", 1, 0, 0⟩)] "4"
        ⟨"31", "32", "Ann", 1, 0, 0⟩ (some 2) (some 2) true (some 3) (some 9) (some 0) false
        none 31 32 (by decide) (by decide) (by decide)⟩⟩

/-- C5: a failed tally query is used as a count of zero for that side
only, and resolution still completes with its announcement and cleanup;
a run with one failed query equals the run with an explicit zero count
for that side. -/
theorem C5_tally_failure_as_zero (st : Registry) (mid : String) (vi : VoteInfo)
    (q : Option Nat) (b : Bool) (a : Option Int) (g u : Int)
    (hget : dictGet st mid = some vi)
    (hg : pyInt vi.group_id = some g)
    (hu : pyInt vi.target_user_id = some u) :
    end_vote_after_delay st mid none q b a = end_vote_after_delay st mid (some 0) q b a ∧
    end_vote_after_delay st mid q none b a = end_vote_after_delay st mid q (some 0) b a ∧
    (end_vote_after_delay st mid none q b a).announcements.length = 1 ∧
    dictGet (end_vote_after_delay st mid none q b a).stateAfter mid = none ∧
    (end_vote_after_delay st mid q none b a).announcements.length = 1 ∧
    dictGet (end_vote_after_delay st mid q none b a).stateAfter mid = none := by
  refine ⟨rfl, rfl, ?_, ?_, ?_, ?_⟩
  · rw [endVote_present st mid vi none q b a g u hget hg hu]
    rfl
  · rw [endVote_present st mid vi none q b a g u hget hg hu]
    exact dictGet_dictPop_self _ _
  · rw [endVote_present st mid vi q none b a g u hget hg hu]
    rfl
  · rw [endVote_present st mid vi q none b a g u hget hg hu]
    exact dictGet_dictPop_self _ _

/-- Witness for C5: the approve query fails while the reject query
observes 2, and conversely, at a concrete registry. -/
theorem C5_tally_failure_as_zero_witness :
    (dictGet [("6", (⟨"41", "42", "Cat", 3, 0, 0⟩ : VoteInfo))] "6" =
        some ⟨"41", "42", "Cat", 3, 0, 0⟩ ∧
      pyInt "41" = some 41 ∧ pyInt "42" = some 42) ∧
    (end_vote_after_delay [("6", ⟨"41", "42", "Cat", 3, 0, 0⟩)] "6" none (some 2) true none =
        end_vote_after_delay [("6", ⟨"41", "42", "Cat", 3, 0, 0⟩)] "6" (some 0) (some 2) true
          none ∧
      end_vote_after_delay [("6", ⟨"41", "42", "Cat", 3, 0, 0⟩)] "6" (some 2) none true none =
        end_vote_after_delay [("6", ⟨"41", "42", "Cat", 3, 0, 0⟩)] "6" (some 2) (some 0) true
          none ∧
      (end_vote_after_delay [("6", ⟨"41", "42", "Cat", 3, 0, 0⟩)] "6" none (some 2) true
          none).announcements.length = 1 ∧
      dictGet (end_vote_after_delay [("6", ⟨"41", "42", "Cat", 3, 0, 0⟩)] "6" none (some 2)
          true none).stateAfter "6" = none ∧
      (end_vote_after_delay [("6", ⟨"41", "42", "Cat", 3, 0, 0⟩)] "6" (some 2) none true
          none).announcements.length = 1 ∧
      dictGet (end_vote_after_delay [("6", ⟨"41", "42", "Cat", 3, 0, 0⟩)] "6" (some 2) none
          true none).stateAfter "6" = none) :=
  ⟨⟨by decide, by decide, by decide⟩,
    C5_tally_failure_as_zero [("6", ⟨"41", "42", "Cat", 3, 0, 0⟩)] "6"
      ⟨"41", "42", "Cat", 3, 0, 0⟩ (some 2) true none 41 42
      (by decide) (by decide) (by decide)⟩

/-- C6 (code-bug evidence): for a passing vote, the mute enforcement call
can fail by raising (`int(user_id)` on the non-integer id "9x", built
before the `try` at line 200): then the announcement step never runs, so
the vote is not reported as passed at all and the record stays in the
registry — contradicting the claim that an enforcement failure leaves the
reported verdict and the cleanup intact. -/
theorem C6_enforcement_crash_eval :
    (some 1 : Option Nat).getD 0 < (some 3 : Option Nat).getD 0 ∧
    (end_vote_after_delay [("200", ⟨"88", "9x", "Eve", 2, 0, 0⟩)] "200" (some 3) (some 1)
        false (some 4)).crashed = true ∧
    (end_vote_after_delay [("200", ⟨"88", "9x", "Eve", 2, 0, 0⟩)] "200" (some 3) (some 1)
        false (some 4)).announcements = [] ∧
    dictGet (end_vote_after_delay [("200", ⟨"88", "9x", "Eve", 2, 0, 0⟩)] "200" (some 3)
        (some 1) false (some 4)).stateAfter "200" = some ⟨"88", "9x", "Eve", 2, 3, 1⟩ := by
  decide

/-- C9: a passing vote issues exactly one ban request, and its duration
field is `mute_minutes * 60` (minutes converted to seconds at the
enforcement boundary). -/
theorem C9_ban_duration_seconds (st : Registry) (mid : String) (vi : VoteInfo)
    (yq nq : Option Nat) (b : Bool) (a : Option Int) (g u : Int)
    (hget : dictGet st mid = some vi)
    (hg : pyInt vi.group_id = some g)
    (hu : pyInt vi.target_user_id = some u)
    (hpass : nq.getD 0 < yq.getD 0) :
    (end_vote_after_delay st mid yq nq b a).muteCalls = [⟨g, u, vi.minutes * 60⟩] := by
  rw [endVote_present st mid vi yq nq b a g u hget hg hu]
  simp [hpass]

/-- Witness for C9: minutes 5 yields a 300-second ban request. -/
theorem C9_ban_duration_seconds_witness :
    (dictGet [("3", (⟨"61", "62", "Dan", 5, 0, 0⟩ : VoteInfo))] "3" =
        some ⟨"61", "62", "Dan", 5, 0, 0⟩ ∧
      pyInt "61" = some 61 ∧ pyInt "62" = some 62 ∧
      (some 0 : Option Nat).getD 0 < (some 4 : Option Nat).getD 0) ∧
    (end_vote_after_delay [("3", ⟨"61", "62", "Dan", 5, 0, 0⟩)] "3" (some 4) (some 0) true
        (some 8)).muteCalls = [⟨61, 62, 5 * 60⟩] :=
  ⟨⟨by decide, by decide, by decide, by decide⟩,
    C9_ban_duration_seconds [("3", ⟨"61", "62", "Dan", 5, 0, 0⟩)] "3"
      ⟨"61", "62", "Dan", 5, 0, 0⟩ (some 4) (some 0) true (some 8) 61 62
      (by decide) (by decide) (by decide) (by decide)⟩

/-- C2: at most one vote record per room at any instant: both operations
preserve the pairwise-distinct-rooms invariant of the registry, and a
second propose for the room of a just-accepted vote fails with the
vote-in-progress message and changes nothing. -/
theorem C2_one_vote_per_room :
    (∀ cfg inp st post, PerRoomUnique st → PerRoomUnique (execute cfg inp st post).stateAfter) ∧
    (∀ st mid yq nq b a, PerRoomUnique st →
        PerRoomUnique (end_vote_after_delay st mid yq nq b a).stateAfter) ∧
    (∀ cfg cfg2 inp inp2 st post post2,
        (execute cfg inp st post).ok = true →
        inp2.group_id = inp.group_id →
        ¬ pyStrip inp2.full_command = "/投票禁言" →
        ¬ inp2.sender_qq.getD "" = "" →
        (execute cfg2 inp2 (execute cfg inp st post).stateAfter post2).ok = false ∧
        (execute cfg2 inp2 (execute cfg inp st post).stateAfter post2).msg = "vote_in_progress" ∧
        (execute cfg2 inp2 (execute cfg inp st post).stateAfter post2).stateAfter =
          (execute cfg inp st post).stateAfter) := by
  refine ⟨?_, ?_, ?_⟩
  · intro cfg inp st post h
    rcases execute_cases cfg inp st post with ⟨_, hst, _⟩ |
      ⟨mid, u, _, _, _, _, _, _, hact, _, _, hst, _⟩
    · rw [hst]; exact h
    · rw [hst]
      exact perRoomUnique_dictSet_new st (toString mid) _ hact h
  · intro st mid yq nq b a h
    exact perRoomUnique_endVote st mid yq nq b a h
  · intro cfg cfg2 inp inp2 st post post2 hok hgid hbare hsqq
    rcases execute_cases cfg inp st post with ⟨hfalse, _, _⟩ |
      ⟨mid, u, _, _, _, _, hgne, _, _, _, _, hst, _⟩
    · rw [hok] at hfalse
      exact Bool.noConfusion hfalse
    · have hact2 :
          hasActiveInRoom (execute cfg inp st post).stateAfter (inp2.group_id.getD "") = true := by
        rw [hst, hgid]
        exact hasActive_dictSet_self st (toString mid) _
      have h2 : ¬ inp2.group_id.getD "" = "" := by rw [hgid]; exact hgne
      rw [execute_inProgress cfg2 inp2 _ post2 hbare h2 hsqq hact2]
      exact ⟨rfl, rfl, rfl⟩

/-- Witness for C2: the empty registry, a concrete accepted propose in
room "50", and a second propose for room "50" that is refused. -/
theorem C2_one_vote_per_room_witness :
    (PerRoomUnique ([] : Registry) ∧
      PerRoomUnique (execute DEFAULT_CONFIG
        ⟨"/投票禁言 @5", MsgParts.str "/投票禁言 @5", some "50", some "51", some "5", none⟩
        [] (some 20)).stateAfter) ∧
    (PerRoomUnique [("4", (⟨"31", "32", "Ann", 1, 0, 0⟩ : VoteInfo))] ∧
      PerRoomUnique (end_vote_after_delay [("4", ⟨"31", "32", "Ann", 1, 0, 0⟩)] "4" (some 1)
        (some 0) true none).stateAfter) ∧
    ((execute DEFAULT_CONFIG
        ⟨"/投票禁言 @5", MsgParts.str "/投票禁言 @5", some "50", some "51", some "5", none⟩
        [] (some 20)).ok = true ∧
      (⟨"/投票禁言 @6", MsgParts.str "/投票禁言 @6", some "50", some "52", some "6",
          none⟩ : ExecInput).group_id =
        (⟨"/投票禁言 @5", MsgParts.str "/投票禁言 @5", some "50", some "51", some "5",
          none⟩ : ExecInput).group_id ∧
      ¬ pyStrip "/投票禁言 @6" = "/投票禁言" ∧
      (execute DEFAULT_CONFIG
        ⟨"/投票禁言 @6", MsgParts.str "/投票禁言 @6", some "50", some "52", some "6", none⟩
        (execute DEFAULT_CONFIG
          ⟨"/投票禁言 @5", MsgParts.str "/投票禁言 @5", some "50", some "51", some "5", none⟩
          [] (some 20)).stateAfter (some 30)).ok = false ∧
      (execute DEFAULT_CONFIG
        ⟨"/投票禁言 @6", MsgParts.str "/投票禁言 @6", some "50", some "52", some "6", none⟩
        (execute DEFAULT_CONFIG
          ⟨"/投票禁言 @5", MsgParts.str "/投票禁言 @5", some "50", some "51", some "5", none⟩
          [] (some 20)).stateAfter (some 30)).msg = "vote_in_progress" ∧
      (execute DEFAULT_CONFIG
        ⟨"/投票禁言 @6", MsgParts.str "/投票禁言 @6", some "50", some "52", some "6", none⟩
        (execute DEFAULT_CONFIG
          ⟨"/投票禁言 @5", MsgParts.str "/投票禁言 @5", some "50", some "51", some "5", none⟩
          [] (some 20)).stateAfter (some 30)).stateAfter =
        (execute DEFAULT_CONFIG
          ⟨"/投票禁言 @5", MsgParts.str "/投票禁言 @5", some "50", some "51", some "5", none⟩
          [] (some 20)).stateAfter) :=
  ⟨⟨by simp [PerRoomUnique],
      C2_one_vote_per_room.1 DEFAULT_CONFIG
        ⟨"/投票禁言 @5", MsgParts.str "/投票禁言 @5", some "50", some "51", some "5", none⟩
        [] (some 20) (by simp [PerRoomUnique])⟩,
    ⟨by simp [PerRoomUnique],
      C2_one_vote_per_room.2.1 [("4", ⟨"31", "32", "Ann", 1, 0, 0⟩)] "4" (some 1) (some 0)
        true none (by simp [PerRoomUnique])⟩,
    by decide, by decide, by decide,
    (C2_one_vote_per_room.2.2 DEFAULT_CONFIG DEFAULT_CONFIG
        ⟨"/投票禁言 @5", MsgParts.str "/投票禁言 @5", some "50", some "51", some "5", none⟩
        ⟨"/投票禁言 @6", MsgParts.str "/投票禁言 @6", some "50", some "52", some "6", none⟩
        [] (some 20) (some 30) (by decide) (by decide) (by decide) (by decide)).1,
    (C2_one_vote_per_room.2.2 DEFAULT_CONFIG DEFAULT_CONFIG
        ⟨"/投票禁言 @5", MsgParts.str "/投票禁言 @5", some "50", some "51", some "5", none⟩
        ⟨"/投票禁言 @6", MsgParts.str "/投票禁言 @6", some "50", some "52", some "6", none⟩
        [] (some 20) (some 30) (by decide) (by decide) (by decide) (by decide)).2.1,
    (C2_one_vote_per_room.2.2 DEFAULT_CONFIG DEFAULT_CONFIG
        ⟨"/投票禁言 @5", MsgParts.str "/投票禁言 @5", some "50", some "51", some "5", none⟩
        ⟨"/投票禁言 @6", MsgParts.str "/投票禁言 @6", some "50", some "52", some "6", none⟩
        [] (some 20) (some 30) (by decide) (by decide) (by decide) (by decide)).2.2⟩

/-- C7: when the proposal announcement post returns no message id,
`execute` inserts nothing and schedules nothing (for every input), and on
the path where all admission checks passed it returns the send-failure
message. -/
theorem C7_announcement_failure_aborts :
    (∀ cfg inp st, (execute cfg inp st none).stateAfter = st ∧
        (execute cfg inp st none).scheduled = []) ∧
    (∀ cfg inp st u,
        ¬ pyStrip inp.full_command = "/投票禁言" →
        ¬ inp.group_id.getD "" = "" →
        ¬ inp.sender_qq.getD "" = "" →
        hasActiveInRoom st (inp.group_id.getD "") = false →
        ¬ inp.target_str.getD "" = "" →
        findTarget (normalizeParts inp.message_parts) (inp.target_str.getD "") = some u →
        (pyInt (inp.group_id.getD "")).isSome = true →
        (execute cfg inp st none).ok = false ∧
        (execute cfg inp st none).msg = "发送投票消息失败") := by
  constructor
  · intro cfg inp st
    rcases execute_cases cfg inp st none with ⟨_, hst, hsch⟩ | ⟨mid, u, hpost, _⟩
    · exact ⟨hst, hsch⟩
    · exact Option.noConfusion hpost
  · intro cfg inp st u h1 h2 h3 h4 h5 h6 h7
    rw [execute_sendfail cfg inp st u h1 h2 h3 h4 h5 h6 h7]
    exact ⟨rfl, rfl⟩

/-- Witness for C7 at a concrete input whose admission checks all pass. -/
theorem C7_announcement_failure_aborts_witness :
    ((execute DEFAULT_CONFIG
        ⟨"/投票禁言 @8", MsgParts.str "/投票禁言 @8", some "70", some "71", some "8", none⟩
        [] none).stateAfter = [] ∧
      (execute DEFAULT_CONFIG
        ⟨"/投票禁言 @8", MsgParts.str "/投票禁言 @8", some "70", some "71", some "8", none⟩
        [] none).scheduled = []) ∧
    (¬ pyStrip "/投票禁言 @8" = "/投票禁言" ∧
      hasActiveInRoom [] "70" = false ∧
      findTarget (normalizeParts (MsgParts.str "/投票禁言 @8")) "8" = some "8" ∧
      (pyInt "70").isSome = true ∧
      (execute DEFAULT_CONFIG
        ⟨"/投票禁言 @8", MsgParts.str "/投票禁言 @8", some "70", some "71", some "8", none⟩
        [] none).ok = false ∧
      (execute DEFAULT_CONFIG
        ⟨"/投票禁言 @8", MsgParts.str "/投票禁言 @8", some "70", some "71", some "8", none⟩
        [] none).msg = "发送投票消息失败") :=
  ⟨C7_announcement_failure_aborts.1 DEFAULT_CONFIG
      ⟨"/投票禁言 @8", MsgParts.str "/投票禁言 @8", some "70", some "71", some "8", none⟩ [],
    by decide, by decide, by decide, by decide,
    (C7_announcement_failure_aborts.2 DEFAULT_CONFIG
        ⟨"/投票禁言 @8", MsgParts.str "/投票禁言 @8", some "70", some "71", some "8", none⟩
        [] "8" (by decide) (by decide) (by decide) (by decide) (by decide) (by decide)
        (by decide)).1,
    (C7_announcement_failure_aborts.2 DEFAULT_CONFIG
        ⟨"/投票禁言 @8", MsgParts.str "/投票禁言 @8", some "70", some "71", some "8", none⟩
        [] "8" (by decide) (by decide) (by decide) (by decide) (by decide) (by decide)
        (by decide)).2⟩

/-- C8 (counterexample): the command pattern's `\d+` minutes group admits
"0"; `int("0")` parses, so this propose is accepted and creates a vote
record with `mute_minutes = 0`, which is not positive. -/
theorem C8_zero_minutes_counterexample :
    (execute DEFAULT_CONFIG
        ⟨"/投票禁言 @123 0", MsgParts.str "/投票禁言 @123 0", some "777", some "42",
          some "123", some "0"⟩ [] (some 7)).ok = true ∧
    dictGet (execute DEFAULT_CONFIG
        ⟨"/投票禁言 @123 0", MsgParts.str "/投票禁言 @123 0", some "777", some "42",
          some "123", some "0"⟩ [] (some 7)).stateAfter "7" =
      some ⟨"777", "123", "123", 0, 0, 0⟩ ∧
    ¬ (0 : Int) < (⟨"777", "123", "123", 0, 0, 0⟩ : VoteInfo).minutes := by
  decide

/-- C8 (amended): every record inserted by an accepted propose carries
`mute_minutes = parseMinutes (minutes group) default`: the supplied
value parsed as an integer when present and parsable, and the configured
default (1 under the default config) when the requester supplies none or
an unparsable one — positivity is not enforced (a supplied "0" parses to
0 and is stored). -/
theorem C8_minutes_default_or_supplied :
    (∀ cfg inp st post k vi,
        dictGet (execute cfg inp st post).stateAfter k = some vi →
        dictGet st k = none →
        vi.minutes = parseMinutes inp.minutes_group cfg.default_minutes) ∧
    (∀ d, parseMinutes none d = d) ∧
    (∀ d s, ¬ s = "" → pyInt s = none → parseMinutes (some s) d = d) ∧
    (∀ d s v, ¬ s = "" → pyInt s = some v → parseMinutes (some s) d = v) ∧
    DEFAULT_CONFIG.default_minutes = 1 := by
  refine ⟨?_, fun d => rfl, ?_, ?_, rfl⟩
  · intro cfg inp st post k vi hget hnone
    rcases execute_cases cfg inp st post with ⟨_, hst, _⟩ |
      ⟨mid, u, _, _, _, _, _, _, _, _, _, hst, _⟩
    · rw [hst] at hget
      rw [hnone] at hget
      exact Option.noConfusion hget
    · rw [hst] at hget
      by_cases hk : k = toString mid
      · subst hk
        rw [dictGet_dictSet_self] at hget
        injection hget with hvi
        rw [← hvi]
      · rw [dictGet_dictSet_ne st (toString mid) k _ hk] at hget
        rw [hnone] at hget
        exact Option.noConfusion hget
  · intro d s hs hnone
    simp [parseMinutes, hs, hnone]
  · intro d s v hs hv
    simp [parseMinutes, hs, hv]

/-- Witness for C8 (amended): a propose with no minutes group stores the
default 1; the unparsable token "zz" falls back to the default; the
parsable token "0" is stored as 0. -/
theorem C8_minutes_default_or_supplied_witness :
    (dictGet (execute DEFAULT_CONFIG
        ⟨"/投票禁言 @5", MsgParts.str "/投票禁言 @5", some "50", some "51", some "5", none⟩
        [] (some 20)).stateAfter "20" = some ⟨"50", "5", "5", 1, 0, 0⟩ ∧
      dictGet [] "20" = none ∧
      (⟨"50", "5", "5", 1, 0, 0⟩ : VoteInfo).minutes =
        parseMinutes none DEFAULT_CONFIG.default_minutes) ∧
    (parseMinutes none (9 : Int) = 9) ∧
    (¬ "zz" = "" ∧ pyInt "zz" = none ∧ parseMinutes (some "zz") (9 : Int) = 9) ∧
    (¬ "0" = "" ∧ pyInt "0" = some 0 ∧ parseMinutes (some "0") (1 : Int) = 0) :=
  ⟨⟨by decide, by decide,
      C8_minutes_default_or_supplied.1 DEFAULT_CONFIG
        ⟨"/投票禁言 @5", MsgParts.str "/投票禁言 @5", some "50", some "51", some "5", none⟩
        [] (some 20) "20" ⟨"50", "5", "5", 1, 0, 0⟩ (by decide) (by decide)⟩,
    C8_minutes_default_or_supplied.2.1 9,
    ⟨by decide, by decide,
      C8_minutes_default_or_supplied.2.2.1 9 "zz" (by decide) (by decide)⟩,
    by decide, by decide,
    C8_minutes_default_or_supplied.2.2.2.1 1 "0" 0 (by decide) (by decide)⟩

/-- C10 (counterexample): the claim's universal clause "for every
successful propose, the stored target_user_id consists only of decimal
digits" is false for structured content: an at-segment with the
non-digit `qq` "xyz" is matched against `target_str` as-is, the propose
succeeds, and the stored `target_user_id` is "xyz". -/
theorem C10_nondigit_target_counterexample :
    (execute DEFAULT_CONFIG
        ⟨"/投票禁言 @xyz", MsgParts.segs [Seg.atSeg "xyz"], some "321", some "66",
          some "xyz", none⟩ [] (some 77)).ok = true ∧
    dictGet (execute DEFAULT_CONFIG
        ⟨"/投票禁言 @xyz", MsgParts.segs [Seg.atSeg "xyz"], some "321", some "66",
          some "xyz", none⟩ [] (some 77)).stateAfter "77" =
      some ⟨"321", "xyz", "xyz", 1, 0, 0⟩ ∧
    ¬ (⟨"321", "xyz", "xyz", 1, 0, 0⟩ : VoteInfo).target_user_id.data.all Char.isDigit =
        true := by
  decide

/-- C10 (amended): when the inbound message content is a plain string,
only target references of the form `@digits` are recognized: every
record newly inserted by such a propose stores a nonempty all-digits
`target_user_id`, and when the content contains no `@digits` group the
propose fails with the target-not-found message leaving the registry
unchanged.  (Structured at-segment content is stored as-is, so that path
can store a non-digit id — see the counterexample.) -/
theorem C10_string_content_digit_targets :
    (∀ cfg inp st post s k vi,
        inp.message_parts = MsgParts.str s →
        dictGet (execute cfg inp st post).stateAfter k = some vi →
        dictGet st k = none →
        ¬ vi.target_user_id.data = [] ∧ vi.target_user_id.data.all Char.isDigit = true) ∧
    (∀ cfg inp st post s,
        inp.message_parts = MsgParts.str s →
        findAtDigits s.data = none →
        ¬ pyStrip inp.full_command = "/投票禁言" →
        ¬ inp.group_id.getD "" = "" →
        ¬ inp.sender_qq.getD "" = "" →
        hasActiveInRoom st (inp.group_id.getD "") = false →
        ¬ inp.target_str.getD "" = "" →
        (execute cfg inp st post).ok = false ∧
        (execute cfg inp st post).msg = "target_id_not_found" ∧
        (execute cfg inp st post).stateAfter = st) := by
  constructor
  · intro cfg inp st post s k vi hs hget hnone
    rcases execute_cases cfg inp st post with ⟨_, hst, _⟩ |
      ⟨mid, u, _, _, _, _, _, _, _, _, hft, hst, _⟩
    · rw [hst] at hget
      rw [hnone] at hget
      exact Option.noConfusion hget
    · rw [hst] at hget
      rw [hs] at hft
      simp only [normalizeParts] at hft
      cases hfd : findAtDigits s.data with
      | none =>
        rw [hfd] at hft
        simp [findTarget] at hft
      | some ds =>
        rw [hfd] at hft
        have hu : u = String.mk ds := findTarget_single _ _ _ hft
        have hds := findAtDigits_digits s.data ds hfd
        by_cases hk : k = toString mid
        · subst hk
          rw [dictGet_dictSet_self] at hget
          injection hget with hvi
          rw [← hvi]
          rw [hu]
          exact hds
        · rw [dictGet_dictSet_ne st (toString mid) k _ hk] at hget
          rw [hnone] at hget
          exact Option.noConfusion hget
  · intro cfg inp st post s hs hfd h1 h2 h3 h4 h5
    have h6 : findTarget (normalizeParts inp.message_parts) (inp.target_str.getD "") = none := by
      rw [hs]
      simp [normalizeParts, hfd, findTarget]
    rw [execute_targetNotFound cfg inp st post h1 h2 h3 h4 h5 h6]
    exact ⟨rfl, rfl, rfl⟩

/-- Witness for C10: the accepted propose from plain-string content
stores the digit id "5"; content mentioning only "@abc" is refused with
the target-not-found message. -/
theorem C10_string_content_digit_targets_witness :
    ((⟨"/投票禁言 @5", MsgParts.str "/投票禁言 @5", some "50", some "51", some "5",
          none⟩ : ExecInput).message_parts = MsgParts.str "/投票禁言 @5" ∧
      dictGet (execute DEFAULT_CONFIG
        ⟨"/投票禁言 @5", MsgParts.str "/投票禁言 @5", some "50", some "51", some "5", none⟩
        [] (some 20)).stateAfter "20" = some ⟨"50", "5", "5", 1, 0, 0⟩ ∧
      ¬ (⟨"50", "5", "5", 1, 0, 0⟩ : VoteInfo).target_user_id.data = [] ∧
      (⟨"50", "5", "5", 1, 0, 0⟩ : VoteInfo).target_user_id.data.all Char.isDigit = true) ∧
    (findAtDigits ("/投票禁言 @abc" : String).data = none ∧
      (execute DEFAULT_CONFIG
        ⟨"/投票禁言 @abc", MsgParts.str "/投票禁言 @abc", some "90", some "91", some "abc",
          none⟩ [] (some 44)).ok = false ∧
      (execute DEFAULT_CONFIG
        ⟨"/投票禁言 @abc", MsgParts.str "/投票禁言 @abc", some "90", some "91", some "abc",
          none⟩ [] (some 44)).msg = "target_id_not_found" ∧
      (execute DEFAULT_CONFIG
        ⟨"/投票禁言 @abc", MsgParts.str "/投票禁言 @abc", some "90", some "91", some "abc",
          none⟩ [] (some 44)).stateAfter = []) :=
  ⟨⟨by decide, by decide,
      (C10_string_content_digit_targets.1 DEFAULT_CONFIG
        ⟨"/投票禁言 @5", MsgParts.str "/投票禁言 @5", some "50", some "51", some "5", none⟩
        [] (some 20) "/投票禁言 @5" "20" ⟨"50", "5", "5", 1, 0, 0⟩ (by decide) (by decide)
        (by decide)).1,
      (C10_string_content_digit_targets.1 DEFAULT_CONFIG
        ⟨"/投票禁言 @5", MsgParts.str "/投票禁言 @5", some "50", some "51", some "5", none⟩
        [] (some 20) "/投票禁言 @5" "20" ⟨"50", "5", "5", 1, 0, 0⟩ (by decide) (by decide)
        (by decide)).2⟩,
    by decide,
    (C10_string_content_digit_targets.2 DEFAULT_CONFIG
      ⟨"/投票禁言 @abc", MsgParts.str "/投票禁言 @abc", some "90", some "91", some "abc",
        none⟩ [] (some 44) "/投票禁言 @abc" (by decide) (by decide) (by decide) (by decide)
      (by decide) (by decide) (by decide)).1,
    (C10_string_content_digit_targets.2 DEFAULT_CONFIG
      ⟨"/投票禁言 @abc", MsgParts.str "/投票禁言 @abc", some "90", some "91", some "abc",
        none⟩ [] (some 44) "/投票禁言 @abc" (by decide) (by decide) (by decide) (by decide)
      (by decide) (by decide) (by decide)).2.1,
    (C10_string_content_digit_targets.2 DEFAULT_CONFIG
      ⟨"/投票禁言 @abc", MsgParts.str "/投票禁言 @abc", some "90", some "91", some "abc",
        none⟩ [] (some 44) "/投票禁言 @abc" (by decide) (by decide) (by decide) (by decide)
      (by decide) (by decide) (by decide)).2.2⟩

end VotePlugin
